import Mathlib

/-
Verification of the SMTP test-server repository (src/smtp.rs, src/server.rs,
src/email.rs) against its natural-language specification.

The embedding models the transport as an explicit trace of byte chunks: the
sequence of results of the successive underlying read calls.  The protocol
state machine of smtp.rs is translated into a small state-passing monad over
that trace; the converter of email.rs is a pure function over a model of the
parsed MIME message; the per-connection loop and channel wiring of server.rs
are translated into explicit step functions.
-/

namespace SmtpTestServer

/- ===================== byte-level codecs ===================== -/

/-- The Unicode replacement character emitted by lossy UTF-8 decoding. -/
def replacementChar : Char := Char.ofNat 0xFFFD

/-- Is the byte a UTF-8 continuation byte (0x80..0xBF)? -/
def utf8Cont (b : Nat) : Bool := 0x80 ≤ b && b < 0xC0

/-- Decode one scalar value from byte b followed by rest, returning the
decoded character (or the replacement character) and how many bytes of
rest were consumed in addition to b.  On malformed input the maximal
valid subpart is consumed, as in Rust's String::from_utf8_lossy. -/
def utf8Decode1 (b : Nat) (rest : List Nat) : Char × Nat :=
  if b < 0x80 then (Char.ofNat b, 0)
  else if b < 0xC2 then (replacementChar, 0)
  else if b < 0xE0 then
    match rest with
    | c1 :: _ =>
      if utf8Cont c1 then (Char.ofNat ((b - 0xC0) * 64 + (c1 - 0x80)), 1)
      else (replacementChar, 0)
    | [] => (replacementChar, 0)
  else if b < 0xF0 then
    let lo1 : Nat := if b = 0xE0 then 0xA0 else 0x80
    let hi1 : Nat := if b = 0xED then 0xA0 else 0xC0
    match rest with
    | c1 :: c2 :: _ =>
      if lo1 ≤ c1 && c1 < hi1 then
        if utf8Cont c2 then
          (Char.ofNat ((b - 0xE0) * 4096 + (c1 - 0x80) * 64 + (c2 - 0x80)), 2)
        else (replacementChar, 1)
      else (replacementChar, 0)
    | [c1] =>
      if lo1 ≤ c1 && c1 < hi1 then (replacementChar, 1)
      else (replacementChar, 0)
    | [] => (replacementChar, 0)
  else if b < 0xF5 then
    let lo1 : Nat := if b = 0xF0 then 0x90 else 0x80
    let hi1 : Nat := if b = 0xF4 then 0x90 else 0xC0
    match rest with
    | c1 :: c2 :: c3 :: _ =>
      if lo1 ≤ c1 && c1 < hi1 then
        if utf8Cont c2 then
          if utf8Cont c3 then
            (Char.ofNat ((b - 0xF0) * 262144 + (c1 - 0x80) * 4096 +
              (c2 - 0x80) * 64 + (c3 - 0x80)), 3)
          else (replacementChar, 2)
        else (replacementChar, 1)
      else (replacementChar, 0)
    | [c1, c2] =>
      if lo1 ≤ c1 && c1 < hi1 then
        if utf8Cont c2 then (replacementChar, 2) else (replacementChar, 1)
      else (replacementChar, 0)
    | [c1] =>
      if lo1 ≤ c1 && c1 < hi1 then (replacementChar, 1)
      else (replacementChar, 0)
    | [] => (replacementChar, 0)
  else (replacementChar, 0)

/-- Fuel-indexed lossy UTF-8 decoding; each step consumes at least one byte
and emits exactly one character, so fuel equal to the list length always
suffices. -/
def utf8LossyAux : Nat → List Nat → List Char
  | 0, _ => []
  | _ + 1, [] => []
  | fuel + 1, b :: rest =>
    let p := utf8Decode1 b rest
    p.1 :: utf8LossyAux fuel (rest.drop p.2)

/-- Model of Rust's String::from_utf8_lossy over a byte list. -/
def fromUtf8Lossy (l : List Nat) : String := ⟨utf8LossyAux l.length l⟩

/-- UTF-8 encoding of one character (model of str::bytes for one char). -/
def charUtf8 (c : Char) : List Nat :=
  let n := c.toNat
  if n < 0x80 then [n]
  else if n < 0x800 then [0xC0 + n / 64, 0x80 + n % 64]
  else if n < 0x10000 then
    [0xE0 + n / 4096, 0x80 + n / 64 % 64, 0x80 + n % 64]
  else
    [0xF0 + n / 262144, 0x80 + n / 4096 % 64, 0x80 + n / 64 % 64,
      0x80 + n % 64]

/-- The UTF-8 bytes of a string (model of Rust str::bytes). -/
def strBytes (s : String) : List Nat := (s.data.map charUtf8).flatten

/-- The standard base64 alphabet. -/
def base64Table : List Char :=
  ['A','B','C','D','E','F','G','H','I','J','K','L','M','N','O','P','Q','R',
   'S','T','U','V','W','X','Y','Z','a','b','c','d','e','f','g','h','i','j',
   'k','l','m','n','o','p','q','r','s','t','u','v','w','x','y','z','0','1',
   '2','3','4','5','6','7','8','9','+','/']

def b64Char (n : Nat) : Char := base64Table.getD n 'A'

/-- Standard padded base64 encoding (model of base64ct::Base64::encode_string). -/
def base64Encode : List Nat → List Char
  | [] => []
  | [b1] => [b64Char (b1 / 4), b64Char (b1 % 4 * 16), '=', '=']
  | [b1, b2] =>
    [b64Char (b1 / 4), b64Char (b1 % 4 * 16 + b2 / 16),
      b64Char (b2 % 16 * 4), '=']
  | b1 :: b2 :: b3 :: rest =>
    b64Char (b1 / 4) :: b64Char (b1 % 4 * 16 + b2 / 16) ::
      b64Char (b2 % 16 * 4 + b3 / 64) :: b64Char (b3 % 64) ::
      base64Encode rest

/- ===================== smtp.rs ===================== -/

/-- Model of smtp::Error (smtp.rs lines 8-18).  The payload of Io is the
message of the underlying I/O error. -/
inductive SmtpError where
  | Io (msg : String)
  | UnexpectedData (expected actual : String)
  | UnexpectedContinuation (actual : String)
deriving DecidableEq, Repr

/-- Model of smtp::Auth (smtp.rs lines 21-29). -/
inductive Auth where
  | Login (username password : String)
  | AcceptAnonOnly
  | AcceptAll
deriving DecidableEq, Repr

/-- Model of smtp::Response (smtp.rs lines 31-36). -/
inductive Response (α : Type) where
  | Email (payload : α)
  | Continue
  | Quit
deriving DecidableEq, Repr

/-- Model of smtp::Data (smtp.rs lines 38-43): the raw envelope. -/
structure Data where
  email : List Nat
  address_from : String
  address_to : String
deriving DecidableEq, Repr

/-- State of one connection's transport: the trace of byte chunks still to be
delivered by successive underlying reads, and the responses written so far. -/
structure MState where
  inputs : List (List Nat)
  writes : List String
deriving DecidableEq, Repr

/-- A step of the session: state-passing with typed errors.  The outer none
means the step never completes (it blocks forever waiting for input beyond
the known trace). -/
def SmtpM (ε α : Type) : Type := MState → Option (Except ε α × MState)

def mpure {ε α : Type} (a : α) : SmtpM ε α := fun s => some (Except.ok a, s)

def mthrow {ε α : Type} (e : ε) : SmtpM ε α := fun s => some (Except.error e, s)

def mbind {ε α β : Type} (x : SmtpM ε α) (f : α → SmtpM ε β) : SmtpM ε β :=
  fun s =>
    match x s with
    | none => none
    | some (Except.error e, s1) => some (Except.error e, s1)
    | some (Except.ok a, s1) => f a s1

/-- Lift a pure Result into the session (models the ? operator on a pure
call such as expect_address). -/
def mofExcept {ε α : Type} (r : Except ε α) : SmtpM ε α := fun s => some (r, s)

/-- Skip the chunks of the trace on which the underlying read returned zero
bytes (the loop of smtp.rs read sleeps READ_WAIT and retries on those) and
return the first chunk with at least one byte. -/
def readChunks : List (List Nat) → Option (List Nat × List (List Nat))
  | [] => none
  | c :: rest => if c = [] then readChunks rest else some (c, rest)

/-- Model of smtp.rs read (lines 46-67): retry past empty reads, then decode
the accumulated buffer lossily. -/
def read {ε : Type} : SmtpM ε String := fun s =>
  match readChunks s.inputs with
  | none => none
  | some (c, rest) => some (Except.ok (fromUtf8Lossy c), ⟨rest, s.writes⟩)

/-- Model of smtp.rs write (lines 69-81). -/
def write {ε : Type} (data : String) : SmtpM ε Unit := fun s =>
  some (Except.ok (), ⟨s.inputs, s.writes ++ [data]⟩)

/-- Model of the single read_buf call used for the message body
(smtp.rs line 204): exactly one underlying read, no retry, the chunk may
even be empty. -/
def read_buf {ε : Type} : SmtpM ε (List Nat) := fun s =>
  match s.inputs with
  | [] => none
  | c :: rest => some (Except.ok c, ⟨rest, s.writes⟩)

/-- Model of smtp.rs read_expect (lines 83-97). -/
def read_expect (expected : String) : SmtpM SmtpError Unit :=
  mbind read fun data =>
    if data = expected then mpure ()
    else mthrow (SmtpError.UnexpectedData expected data)

/-- Rust str::starts_with on the model (byte prefix equals char-list prefix
for well-formed strings). -/
def starts_with (s p : String) : Bool := p.data.isPrefixOf s.data

/-- Rust str::ends_with on the model. -/
def ends_with (s p : String) : Bool := p.data.isSuffixOf s.data

/-- Model of smtp.rs expect_address (lines 99-112): the line must start with
"command:<" and end with ">\r\n"; the part between is the address. -/
def expect_address (data : String) (command : String) :
    Except SmtpError String :=
  if starts_with data (command ++ ":<") && ends_with data (">\r\n") then
    Except.ok ⟨(data.data.take (data.data.length - 3)).drop (command.length + 2)⟩
  else
    Except.error (SmtpError.UnexpectedData (command ++ ":<...>\r\n") data)

/-- Model of smtp.rs encode_password (lines 114-122). -/
def encode_password (username password : String) : String :=
  ⟨base64Encode ([0] ++ strBytes username ++ [0] ++ strBytes password)⟩

/-- Model of smtp.rs respond_auth_ok (lines 124-129). -/
def respond_auth_ok : SmtpM SmtpError Unit :=
  write "235 Authentication successful\r\n"

/-- Model of smtp.rs respond_auth_fail (lines 131-139). -/
def respond_auth_fail : SmtpM SmtpError Unit :=
  mbind (write "535 Authentication failed\r\n") fun _ =>
  mbind (read_expect "QUIT\r\n") fun _ =>
  write "221 Ok\r\n"

/-- The command-dispatch tail of smtp.rs receive (lines 185-219), applied to
the command line obtained after the authentication step. -/
def command_dispatch (data : String) : SmtpM SmtpError (Response Data) :=
  if data = "NOOP\r\n" then
    mbind (write "250 Ok\r\n") fun _ =>
    mbind (read_expect "QUIT\r\n") fun _ =>
    mbind (write "221 Ok\r\n") fun _ =>
    mpure Response.Continue
  else if starts_with data "MAIL" then
    mbind (mofExcept (expect_address data "MAIL FROM")) fun address_from =>
    mbind (write "250 Ok\r\n") fun _ =>
    mbind read fun data2 =>
    mbind (mofExcept (expect_address data2 "RCPT TO")) fun address_to =>
    mbind (write "250 Ok\r\n") fun _ =>
    mbind (read_expect "DATA\r\n") fun _ =>
    mbind (write "354 Go\r\n") fun _ =>
    mbind read_buf fun email =>
    mbind (read_expect "\r\n.\r\n") fun _ =>
    mbind (write "250 Ok\r\n") fun _ =>
    mbind (read_expect "QUIT\r\n") fun _ =>
    mbind (write "221 Ok\r\n") fun _ =>
    mpure (Response.Email ⟨email, address_from, address_to⟩)
  else
    mthrow (SmtpError.UnexpectedContinuation data)

/-- The authentication step of smtp.rs receive (lines 153-183): read one
line; on an AUTH-prefixed line branch on policy, otherwise use the line as
the command line directly. -/
def auth_step (auth : Auth) : SmtpM SmtpError (Response Data) :=
  mbind read fun data =>
    if starts_with data "AUTH" then
      match auth with
      | Auth.Login username password =>
        if data = "AUTH PLAIN " ++ encode_password username password ++ "\r\n"
        then
          mbind respond_auth_ok fun _ => mbind read command_dispatch
        else
          mbind respond_auth_fail fun _ => mpure Response.Quit
      | Auth.AcceptAnonOnly =>
        mbind respond_auth_fail fun _ => mpure Response.Quit
      | Auth.AcceptAll =>
        mbind respond_auth_ok fun _ => mbind read command_dispatch
    else
      match auth with
      | Auth.Login _ _ =>
        mbind respond_auth_fail fun _ => mpure Response.Quit
      | Auth.AcceptAnonOnly => command_dispatch data
      | Auth.AcceptAll => command_dispatch data

/-- Model of smtp.rs receive (lines 141-220): greeting, capability
announcement, authentication step, command dispatch. -/
def receive (server_ip client_ip : String) (auth : Auth) :
    SmtpM SmtpError (Response Data) :=
  mbind (write ("220 " ++ server_ip ++ "\r\n")) fun _ =>
  mbind (read_expect ("EHLO [" ++ client_ip ++ "]\r\n")) fun _ =>
  mbind (write ("250-" ++ server_ip ++ "\r\n")) fun _ =>
  mbind (write "250 AUTH PLAIN\r\n") fun _ =>
  auth_step auth

/- ===================== email.rs ===================== -/

/-- One header of the parsed MIME message, as exposed by the external
mailparse library: get_key gives the original key, get_value the decoded
value. -/
structure MailHeader where
  key : String
  value : String
deriving DecidableEq, Repr

/-- One top-level part of the parsed MIME message.  body is the result of
get_body(): none models the Err case of that call, which the code unwraps. -/
structure ParsedPart where
  mimetype : String
  body : Option String
deriving DecidableEq, Repr

/-- The parsed MIME message produced by mailparse::parse_mail: the header
list in order of appearance and the top-level subparts. -/
structure ParsedMail where
  headers : List MailHeader
  subparts : List ParsedPart
deriving DecidableEq, Repr

/-- Model of email::ConversionError (email.rs lines 64-91); the source's
spelling Mising is kept. -/
inductive ConversionError where
  | MisingFromAddress
  | MultipleFromAddresses (values : List String)
  | FromAddressMismatch (smtp email : String)
  | MisingToAddress
  | MultipleToAddresses (values : List String)
  | ToAddressMismatch (smtp email : String)
  | MisingSubject
  | MultipleSubjects (values : List String)
  | UnexpectedPartCount (count : Nat)
  | UnexpectedPartMime (actual : String) (expected : String)
deriving DecidableEq, Repr

/-- Model of email::Email (email.rs lines 6-31).  headers models the
HashMap-collected map: the lookup value of a key is the value of its last
occurrence in the list. -/
structure Email where
  address_from : String
  address_to : String
  subject : String
  headers : List (String × String)
  body_text : String
  body_html : String
deriving DecidableEq, Repr

def asciiLower (c : Char) : Char :=
  if 'A' ≤ c && c ≤ 'Z' then Char.ofNat (c.toNat + 32) else c

/-- Case-insensitive header-name comparison, as used by mailparse's
MailHeaderMap lookup. -/
def headerKeyEq (a b : String) : Bool :=
  a.data.map asciiLower = b.data.map asciiLower

/-- Model of mailparse's MailHeaderMap::get_all_values: the decoded values
of all headers whose key matches case-insensitively, in order. -/
def get_all_values (headers : List MailHeader) (key : String) : List String :=
  (headers.filter fun h => headerKeyEq h.key key).map MailHeader.value

/-- Rust str::contains for a literal pattern on the model. -/
def str_contains (s pat : String) : Bool := decide (pat.data <:+: s.data)

/-- Rust str::strip_suffix for the CRLF suffix (email.rs lines 129-132):
strip one trailing CRLF if present. -/
def stripCrlf (s : String) : String :=
  if ends_with s "\r\n" then ⟨s.data.take (s.data.length - 2)⟩ else s

/-- Model of email.rs convert_email (lines 94-165).  The result is none
exactly when the code panics: the two get_body() results are unwrapped
before the mimetype checks, so a failing body decode panics even when the
mimetype is wrong. -/
def convert_email (address_from address_to : String) (mail : ParsedMail) :
    Option (Except ConversionError Email) :=
  let from_addrs := get_all_values mail.headers "From"
  if from_addrs.length > 1 then
    some (Except.error (ConversionError.MultipleFromAddresses from_addrs))
  else
    match from_addrs.getLast? with
    | none => some (Except.error ConversionError.MisingFromAddress)
    | some from_addr =>
      if ! str_contains from_addr ("<" ++ address_from ++ ">") then
        some (Except.error
          (ConversionError.FromAddressMismatch address_from from_addr))
      else
        let to_addrs := get_all_values mail.headers "To"
        if to_addrs.length > 1 then
          some (Except.error (ConversionError.MultipleToAddresses to_addrs))
        else
          match to_addrs.getLast? with
          | none => some (Except.error ConversionError.MisingToAddress)
          | some to_addr =>
            if ! str_contains to_addr ("<" ++ address_to ++ ">") then
              some (Except.error
                (ConversionError.ToAddressMismatch address_to to_addr))
            else
              let subjects := get_all_values mail.headers "Subject"
              if subjects.length > 1 then
                some (Except.error
                  (ConversionError.MultipleSubjects subjects))
              else
                match subjects.getLast? with
                | none => some (Except.error ConversionError.MisingSubject)
                | some subject0 =>
                  let subject := stripCrlf subject0
                  if mail.subparts.length ≠ 2 then
                    some (Except.error
                      (ConversionError.UnexpectedPartCount
                        mail.subparts.length))
                  else
                    -- subparts[0] and subparts[1]; unreachable default
                    match mail.subparts with
                    | [sp1, sp2] =>
                      match sp1.body, sp2.body with
                      | some part1, some part2 =>
                        if sp1.mimetype ≠ "text/plain" then
                          some (Except.error
                            (ConversionError.UnexpectedPartMime
                              sp1.mimetype "text/plain"))
                        else if sp2.mimetype ≠ "text/html" then
                          some (Except.error
                            (ConversionError.UnexpectedPartMime
                              sp2.mimetype "text/html"))
                        else
                          some (Except.ok
                            { address_from := address_from
                              address_to := address_to
                              subject := subject
                              headers := mail.headers.map fun h =>
                                (h.key, h.value)
                              body_text := part1
                              body_html := part2 })
                      | _, _ => none
                    | _ => none

/-- Model of email::ParseError (email.rs lines 53-59). -/
inductive ParseError where
  | Parse (msg : String)
  | Convert (e : ConversionError)
deriving DecidableEq, Repr

/-- Model of Email::parse (email.rs lines 34-37), parameterized by the
external mailparse::parse_mail; none propagates the convert_email panic. -/
def Email.parse (parse_mail : List Nat → Except String ParsedMail)
    (data : Data) : Option (Except ParseError Email) :=
  match parse_mail data.email with
  | Except.error e => some (Except.error (ParseError.Parse e))
  | Except.ok mail =>
    match convert_email data.address_from data.address_to mail with
    | none => none
    | some (Except.error e) => some (Except.error (ParseError.Convert e))
    | some (Except.ok email) => some (Except.ok email)

/- ===================== server.rs ===================== -/

/-- Model of server::Error (server.rs lines 11-19). -/
inductive ServerError where
  | Smtp (e : SmtpError)
  | Parse (e : ParseError)
  | Accept (msg : String)
deriving DecidableEq, Repr

/-- Lift a protocol-level step into the server error type (the From
conversion applied by the ? operator in server.rs run). -/
def liftSmtp {α : Type} (m : SmtpM SmtpError α) : SmtpM ServerError α :=
  fun s =>
    match m s with
    | none => none
    | some (Except.error e, s1) => some (Except.error (ServerError.Smtp e), s1)
    | some (Except.ok a, s1) => some (Except.ok a, s1)

/-- The conversion tail of server.rs run (lines 176-183): on an Email
outcome parse the envelope, otherwise pass the outcome through. -/
def run_convert (parse_mail : List Nat → Except String ParsedMail) :
    Response Data → SmtpM ServerError (Response Email) :=
  fun response s =>
    match response with
    | Response.Email data =>
      match Email.parse parse_mail data with
      | none => none
      | some (Except.error e) => some (Except.error (ServerError.Parse e), s)
      | some (Except.ok email) => some (Except.ok (Response.Email email), s)
    | Response.Continue => some (Except.ok Response.Continue, s)
    | Response.Quit => some (Except.ok Response.Quit, s)

/-- Model of server.rs run (lines 168-184).  Note the parameter order of the
source: (socket, client_ip, server_ip, auth), and the call
receive(socket, server_ip, client_ip, auth). -/
def run (parse_mail : List Nat → Except String ParsedMail)
    (client_ip server_ip : String) (auth : Auth) :
    SmtpM ServerError (Response Email) :=
  mbind (liftSmtp (receive server_ip client_ip auth)) (run_convert parse_mail)

/-- One pass of server.rs task (line 153): the source declares the
parameters in the order (socket, client_ip, server_ip, auth, channel) and
calls run(&mut socket, &server_ip, &client_ip, &auth), swapping the two
addresses. -/
def task_pass (parse_mail : List Nat → Except String ParsedMail)
    (client_ip server_ip : String) (auth : Auth) :
    SmtpM ServerError (Response Email) :=
  run parse_mail server_ip client_ip auth

/-- The session unit spawned by try_receive (server.rs lines 128-130):
task(socket, self.address()?.ip(), client_address.ip(), auth, tx), so the
first address argument is the server's own bound address and the second the
accepted connection's peer address. -/
def try_receive_spawn (parse_mail : List Nat → Except String ParsedMail)
    (server_bound_ip peer_ip : String) (auth : Auth) :
    SmtpM ServerError (Response Email) :=
  task_pass parse_mail server_bound_ip peer_ip auth

/-- What the per-connection loop of server.rs task (lines 152-165) does
after one pass, given the pass result and whether the channel send (if any)
succeeded. -/
inductive TaskNext where
  | loopAgain
  | stop
deriving DecidableEq, Repr

/-- Model of one iteration of the loop in server.rs task (lines 152-165):
Email results are sent on the channel; Continue loops; Quit returns; an
error is sent on the channel; after a send, the loop returns only when the
send failed. -/
def task_iter (result : Except ServerError (Response Email))
    (send_ok : Bool) : TaskNext :=
  match result with
  | Except.ok (Response.Email _) =>
    if send_ok then TaskNext.loopAgain else TaskNext.stop
  | Except.ok Response.Continue => TaskNext.loopAgain
  | Except.ok Response.Quit => TaskNext.stop
  | Except.error _ =>
    if send_ok then TaskNext.loopAgain else TaskNext.stop

/- ============ smtp.rs read over an unbounded transport ============ -/

/-- smtp.rs line 5: the fixed retry delay of the read loop, in
milliseconds. -/
def READ_WAIT_MS : Nat := 10

/-- The loop of smtp.rs read (lines 50-59) over the infinite sequence of
underlying read results, with fuel bounding how many iterations we may
observe: at index i, a zero-byte result causes one sleep of READ_WAIT_MS
and a retry at i+1; a non-empty result c stops the loop with buffer c.
The value is the buffer together with the number of sleeps performed. -/
def read_poll (stream : Nat → List Nat) : Nat → Nat → Option (List Nat × Nat)
  | 0, _ => none
  | fuel + 1, i =>
    if stream i = [] then read_poll stream fuel (i + 1) else some (stream i, i)

/-- smtp.rs read (lines 46-67) over the infinite transport: the decoded
buffer and the number of sleeps, or none when no bound on the number of
iterations suffices. -/
def read_result (stream : Nat → List Nat) (fuel : Nat) :
    Option (String × Nat) :=
  (read_poll stream fuel 0).map fun p => (fromUtf8Lossy p.1, p.2)

/- ============ server.rs result channel ============ -/

/-- The state of the bounded result channel of server.rs: the buffered
results and the number of sender clones currently held by spawned
connection tasks.  The Server value itself holds one further sender,
channel_tx, stored in the struct at server.rs line 41; total_senders
accounts for it. -/
structure ChannelModel (α : Type) where
  queue : List α
  task_senders : Nat
deriving DecidableEq, Repr

/-- All live senders: the task clones plus the sender retained by the
Server struct itself. -/
def total_senders {α : Type} (ch : ChannelModel α) : Nat :=
  ch.task_senders + 1

/-- Model of the closed observation of tokio mpsc: Receiver::recv returns
None exactly when every sender has been dropped (and the buffer drained);
with at least one live sender, recv never yields None. -/
def recv_observes_closed {α : Type} (ch : ChannelModel α) : Prop :=
  total_senders ch = 0

/-- Transitions of the channel state during the server's life: try_receive
clones channel_tx for a spawned task (server.rs line 129), a task drops its
clone when it returns, a task sends a result, the consumer receives one. -/
inductive ChannelStep (α : Type) : ChannelModel α → ChannelModel α → Prop
  | spawn (q : List α) (n : Nat) : ChannelStep α ⟨q, n⟩ ⟨q, n + 1⟩
  | task_done (q : List α) (n : Nat) : ChannelStep α ⟨q, n + 1⟩ ⟨q, n⟩
  | send (n : Nat) (a : α) :
      ChannelStep α ⟨[], n + 1⟩ ⟨[a], n + 1⟩
  | recv (q : List α) (n : Nat) (a : α) : ChannelStep α ⟨a :: q, n⟩ ⟨q, n⟩

/-- Channel states reachable from the state just after Server::start
(server.rs lines 37-43): empty buffer, no spawned tasks. -/
inductive ChannelReachable (α : Type) : ChannelModel α → Prop
  | init : ChannelReachable α ⟨[], 0⟩
  | step {c c' : ChannelModel α} :
      ChannelReachable α c → ChannelStep α c c' → ChannelReachable α c'

/- ===================== proof toolkit ===================== -/

lemma data_append (s t : String) : (s ++ t).data = s.data ++ t.data := rfl

lemma mk_data (s : String) : (⟨s.data⟩ : String) = s := rfl

lemma starts_with_append (p t : String) : starts_with (p ++ t) p = true := by
  show p.data.isPrefixOf (p ++ t).data = true
  rw [data_append, List.isPrefixOf_iff_prefix]
  exact List.prefix_append _ _

lemma ends_with_append (t p : String) : ends_with (t ++ p) p = true := by
  show p.data.isSuffixOf (t ++ p).data = true
  rw [data_append, List.isSuffixOf_iff_suffix]
  exact List.suffix_append _ _

lemma take_sub3_drop (p mid : List Char) :
    (((p ++ mid) ++ ['>', '\x0d', '\n']).take
      (((p ++ mid) ++ ['>', '\x0d', '\n']).length - 3)).drop p.length = mid := by
  have hlen : (p ++ mid).length
      = ((p ++ mid) ++ ['>', '\x0d', '\n']).length - 3 := by
    have h3 : ((p ++ mid) ++ ['>', '\x0d', '\n']).length
        = (p ++ mid).length + 3 := by rw [List.length_append]; rfl
    omega
  rw [← hlen, List.take_left, List.drop_left]

lemma expect_address_ok (command a : String) :
    expect_address (command ++ ":<" ++ a ++ ">\r\n") command = Except.ok a := by
  have hsw : starts_with (command ++ ":<" ++ a ++ ">\r\n")
      (command ++ ":<") = true := by
    have hsplit : command ++ ":<" ++ a ++ ">\r\n"
        = (command ++ ":<") ++ (a ++ ">\r\n") := by
      rw [String.append_assoc, String.append_assoc]
    rw [hsplit]; exact starts_with_append _ _
  have hew : ends_with (command ++ ":<" ++ a ++ ">\r\n") (">\r\n") = true := by
    have h2 : command ++ ":<" ++ a ++ ">\r\n"
        = (command ++ ":<" ++ a) ++ ">\r\n" := rfl
    rw [h2]; exact ends_with_append _ _
  have hD : (command ++ ":<" ++ a ++ ">\r\n").data
      = ((command.data ++ [':', '<']) ++ a.data) ++ ['>', '\x0d', '\n'] := by
    show (command.data ++ [':', '<'] ++ a.data) ++ ['>', '\x0d', '\n']
        = ((command.data ++ [':', '<']) ++ a.data) ++ ['>', '\x0d', '\n']
    rfl
  have hcmd : command.length + 2 = (command.data ++ [':', '<']).length := by
    rw [List.length_append]
    rfl
  unfold expect_address
  rw [hsw, hew]
  simp only [Bool.and_self, if_true]
  rw [hD, hcmd, take_sub3_drop]

lemma expect_address_bad (data command : String)
    (h : (starts_with data (command ++ ":<") && ends_with data ">\r\n")
      = false) :
    expect_address data command
      = Except.error (SmtpError.UnexpectedData (command ++ ":<...>\r\n") data) := by
  unfold expect_address
  rw [h]
  rfl

/- step lemmas for running the state machine -/

lemma mbind_assoc {ε α β γ : Type} (x : SmtpM ε α) (g : α → SmtpM ε β)
    (f : β → SmtpM ε γ) :
    mbind (mbind x g) f = mbind x fun a => mbind (g a) f := by
  funext s
  cases hx : x s with
  | none => simp [mbind, hx]
  | some p =>
    obtain ⟨r, s1⟩ := p
    cases r <;> simp [mbind, hx]

lemma mbind_mpure {ε α β : Type} (a : α) (f : α → SmtpM ε β) :
    mbind (mpure a) f = f a := rfl

lemma mbind_mthrow {ε α β : Type} (e : ε) (f : α → SmtpM ε β) (s : MState) :
    mbind (mthrow e) f s = some (Except.error e, s) := rfl

lemma run_mofExcept_ok {ε α β : Type} (a : α) (f : α → SmtpM ε β)
    (s : MState) : mbind (mofExcept (Except.ok a)) f s = f a s := rfl

lemma run_mofExcept_err {ε α β : Type} (e : ε) (f : α → SmtpM ε β)
    (s : MState) :
    mbind (mofExcept (Except.error e)) f s = some (Except.error e, s) := rfl

lemma run_write {ε α : Type} (d : String) (f : Unit → SmtpM ε α)
    (ins : List (List Nat)) (w : List String) :
    mbind (write d) f ⟨ins, w⟩ = f () ⟨ins, w ++ [d]⟩ := rfl

lemma run_read {ε α : Type} (f : String → SmtpM ε α) (c : List Nat)
    (cs : List (List Nat)) (w : List String) (hc : c ≠ []) :
    mbind read f ⟨c :: cs, w⟩ = f (fromUtf8Lossy c) ⟨cs, w⟩ := by
  unfold mbind read readChunks
  rw [if_neg hc]

lemma run_read_buf {ε α : Type} (f : List Nat → SmtpM ε α) (c : List Nat)
    (cs : List (List Nat)) (w : List String) :
    mbind read_buf f ⟨c :: cs, w⟩ = f c ⟨cs, w⟩ := rfl

lemma run_read_expect_ok {α : Type} (expected : String)
    (f : Unit → SmtpM SmtpError α) (c : List Nat) (cs : List (List Nat))
    (w : List String) (hc : c ≠ []) (h : fromUtf8Lossy c = expected) :
    mbind (read_expect expected) f ⟨c :: cs, w⟩ = f () ⟨cs, w⟩ := by
  unfold read_expect
  rw [mbind_assoc, run_read _ _ _ _ hc]
  simp only [h, if_true, mbind_mpure]

lemma run_read_expect_fail {α : Type} (expected : String)
    (f : Unit → SmtpM SmtpError α) (c : List Nat) (cs : List (List Nat))
    (w : List String) (hc : c ≠ []) (h : fromUtf8Lossy c ≠ expected) :
    mbind (read_expect expected) f ⟨c :: cs, w⟩
      = some (Except.error
          (SmtpError.UnexpectedData expected (fromUtf8Lossy c)), ⟨cs, w⟩) := by
  unfold read_expect
  rw [mbind_assoc, run_read _ _ _ _ hc]
  simp only [if_neg h, mbind_mthrow]

lemma run_mpure {ε α : Type} (a : α) (s : MState) :
    mpure (ε := ε) a s = some (Except.ok a, s) := rfl

lemma mbind_err {ε α β : Type} (x : SmtpM ε α) (f : α → SmtpM ε β)
    (s s1 : MState) (e : ε) (h : x s = some (Except.error e, s1)) :
    mbind x f s = some (Except.error e, s1) := by
  unfold mbind
  rw [h]

lemma mbind_congr {ε α β : Type} (x x' : SmtpM ε α) (f : α → SmtpM ε β)
    (s s' : MState) (h : x s = x' s') : mbind x f s = mbind x' f s' := by
  unfold mbind
  rw [h]

lemma liftSmtp_congr {α : Type} (m m' : SmtpM SmtpError α) (s s' : MState)
    (h : m s = m' s') : liftSmtp m s = liftSmtp m' s' := by
  unfold liftSmtp
  rw [h]

lemma liftSmtp_step_err {α : Type} (m : SmtpM SmtpError α) (s s1 : MState)
    (e : SmtpError) (h : m s = some (Except.error e, s1)) :
    liftSmtp m s = some (Except.error (ServerError.Smtp e), s1) := by
  unfold liftSmtp
  rw [h]

lemma str_ext {s t : String} (h : s.data = t.data) : s = t := by
  cases s
  cases t
  exact congrArg String.mk h

lemma str_ne_of_length {s t : String} (h : s.length ≠ t.length) : s ≠ t :=
  fun e => h (congrArg String.length e)

lemma mail_line_ne_noop (a : String) :
    "MAIL FROM:<" ++ a ++ ">\r\n" ≠ "NOOP\r\n" := by
  apply str_ne_of_length
  simp only [String.length_append, show "MAIL FROM:<".length = 11 from rfl,
    show ">\r\n".length = 3 from rfl, show "NOOP\r\n".length = 6 from rfl]
  omega

lemma mail_line_starts_mail (a : String) :
    starts_with ("MAIL FROM:<" ++ a ++ ">\r\n") "MAIL" = true := by
  have hsplit : "MAIL FROM:<" ++ a ++ ">\r\n"
      = "MAIL" ++ (" FROM:<" ++ a ++ ">\r\n") := rfl
  rw [hsplit]
  exact starts_with_append _ _

/- ===================== claims ===================== -/

/-- C2: after the authentication step, with the command line
MAIL FROM:<a>\r\n and subsequent reads yielding exactly RCPT TO:<b>\r\n,
DATA\r\n, one body chunk, the literal \r\n.\r\n and QUIT\r\n, the state
machine writes 250 Ok, 250 Ok, 354 Go, 250 Ok, 221 Ok at the corresponding
steps, consumes exactly one read for the body bytes, and returns Email with
address_from = a, address_to = b and email = the bytes of that single body
read; and any line failing the keyword:<...> pattern yields an
unexpected-data error quoting the pattern and the actual line. -/
theorem C2_mail_transaction (a b : String) (rcpt dataLn term quit : List Nat)
    (body : List Nat) (rest : List (List Nat)) (w : List String)
    (h1 : fromUtf8Lossy rcpt = "RCPT TO:<" ++ b ++ ">\r\n") (h1ne : rcpt ≠ [])
    (h2 : fromUtf8Lossy dataLn = "DATA\r\n") (h2ne : dataLn ≠ [])
    (h3 : fromUtf8Lossy term = "\r\n.\r\n") (h3ne : term ≠ [])
    (h4 : fromUtf8Lossy quit = "QUIT\r\n") (h4ne : quit ≠ []) :
    command_dispatch ("MAIL FROM:<" ++ a ++ ">\r\n")
        ⟨rcpt :: dataLn :: body :: term :: quit :: rest, w⟩
      = some (Except.ok (Response.Email ⟨body, a, b⟩),
          ⟨rest, w ++ ["250 Ok\r\n", "250 Ok\r\n", "354 Go\r\n",
            "250 Ok\r\n", "221 Ok\r\n"]⟩)
    ∧ (∀ (line keyword : String),
        (starts_with line (keyword ++ ":<") && ends_with line ">\r\n")
          = false →
        expect_address line keyword
          = Except.error
              (SmtpError.UnexpectedData (keyword ++ ":<...>\r\n") line)) := by
  constructor
  · have hnoop := mail_line_ne_noop a
    have hsw := mail_line_starts_mail a
    have he1 : expect_address ("MAIL FROM:<" ++ a ++ ">\r\n") "MAIL FROM"
        = Except.ok a := by
      have hsplit : "MAIL FROM:<" ++ a ++ ">\r\n"
          = "MAIL FROM" ++ ":<" ++ a ++ ">\r\n" := rfl
      rw [hsplit, expect_address_ok]
    have he2 : expect_address ("RCPT TO:<" ++ b ++ ">\r\n") "RCPT TO"
        = Except.ok b := by
      have hsplit : "RCPT TO:<" ++ b ++ ">\r\n"
          = "RCPT TO" ++ ":<" ++ b ++ ">\r\n" := rfl
      rw [hsplit, expect_address_ok]
    simp only [command_dispatch, hnoop, hsw, he1, he2, h1, h2, h3, h4,
      h1ne, h2ne, h3ne, h4ne, run_mofExcept_ok, run_write, run_read,
      run_read_buf, run_read_expect_ok, run_mpure, if_true, if_false,
      ite_false, ite_true, ne_eq, not_false_eq_true,
      List.append_assoc, List.cons_append, List.nil_append]
  · intro line keyword h
    exact expect_address_bad line keyword h

/-- Witness for C2 on a concrete transaction. -/
theorem C2_mail_transaction_witness :
    command_dispatch ("MAIL FROM:<" ++ "a@x.com" ++ ">\r\n")
        ⟨[strBytes "RCPT TO:<b@x.com>\r\n", strBytes "DATA\r\n",
          strBytes "HELLO", strBytes "\r\n.\r\n", strBytes "QUIT\r\n"], []⟩
      = some (Except.ok (Response.Email
            ⟨strBytes "HELLO", "a@x.com", "b@x.com"⟩),
          ⟨[], ["250 Ok\r\n", "250 Ok\r\n", "354 Go\r\n", "250 Ok\r\n",
            "221 Ok\r\n"]⟩)
    ∧ expect_address "MAIL OOPS\r\n" "MAIL FROM"
        = Except.error
            (SmtpError.UnexpectedData "MAIL FROM:<...>\r\n" "MAIL OOPS\r\n") := by
  have h := C2_mail_transaction "a@x.com" "b@x.com"
    (strBytes "RCPT TO:<b@x.com>\r\n") (strBytes "DATA\r\n")
    (strBytes "\r\n.\r\n") (strBytes "QUIT\r\n") (strBytes "HELLO") [] []
    (by decide) (by decide) (by decide) (by decide)
    (by decide) (by decide) (by decide) (by decide)
  exact ⟨h.1, h.2 "MAIL OOPS\r\n" "MAIL FROM" (by decide)⟩

/-- C3: under Login with username u and password p, an AUTH-prefixed line
equal to AUTH PLAIN base64(0 u 0 p) CRLF is answered with 235 and the next
command line is read and dispatched; any other AUTH-prefixed line gets the
Auth-Fail sub-sequence (535, expect QUIT, 221) and the outcome Quit. -/
theorem C3_login_auth (u p : String) (c : List Nat) (cs : List (List Nat))
    (w : List String) (hc : c ≠ [])
    (hauth : starts_with (fromUtf8Lossy c) "AUTH" = true) :
    (fromUtf8Lossy c = "AUTH PLAIN " ++ encode_password u p ++ "\r\n" →
      auth_step (Auth.Login u p) ⟨c :: cs, w⟩
        = mbind read command_dispatch
            ⟨cs, w ++ ["235 Authentication successful\r\n"]⟩)
    ∧ (fromUtf8Lossy c ≠ "AUTH PLAIN " ++ encode_password u p ++ "\r\n" →
      ∀ (q : List Nat) (qs : List (List Nat)), q ≠ [] →
        fromUtf8Lossy q = "QUIT\r\n" → cs = q :: qs →
        auth_step (Auth.Login u p) ⟨c :: cs, w⟩
          = some (Except.ok Response.Quit,
              ⟨qs, w ++ ["535 Authentication failed\r\n", "221 Ok\r\n"]⟩)) := by
  constructor
  · intro h
    have hauth2 : starts_with
        ("AUTH PLAIN " ++ encode_password u p ++ "\r\n") "AUTH" = true :=
      h ▸ hauth
    simp only [auth_step, respond_auth_ok, mbind_assoc, run_read _ _ _ _ hc,
      h, hauth2, if_true, ite_true, run_write, List.append_assoc,
      List.cons_append, List.nil_append]
  · intro h q qs hq hqd hcs
    subst hcs
    simp only [auth_step, respond_auth_fail, mbind_assoc,
      run_read _ _ _ _ hc, hauth, if_true, ite_true, if_neg h, run_write,
      run_read_expect_ok _ _ _ _ _ hq hqd, run_mpure, List.append_assoc,
      List.cons_append, List.nil_append]

/-- Witness for C3 with concrete credentials user and pwd. -/
theorem C3_login_auth_witness :
    (auth_step (Auth.Login "user" "pwd")
        ⟨[strBytes ("AUTH PLAIN " ++ encode_password "user" "pwd" ++ "\r\n")],
          []⟩
      = mbind read command_dispatch
          ⟨[], ["235 Authentication successful\r\n"]⟩)
    ∧ (auth_step (Auth.Login "user" "pwd")
        ⟨[strBytes "AUTH PLAIN eHh4\r\n", strBytes "QUIT\r\n"], []⟩
      = some (Except.ok Response.Quit,
          ⟨[], ["535 Authentication failed\r\n", "221 Ok\r\n"]⟩)) := by
  constructor
  · exact (C3_login_auth "user" "pwd"
      (strBytes ("AUTH PLAIN " ++ encode_password "user" "pwd" ++ "\r\n"))
      [] [] (by decide) (by decide)).1 (by decide)
  · exact (C3_login_auth "user" "pwd" (strBytes "AUTH PLAIN eHh4\r\n")
      [strBytes "QUIT\r\n"] [] (by decide) (by decide)).2 (by decide)
      (strBytes "QUIT\r\n") [] (by decide) (by decide) rfl

/-- C5: under AcceptAnonOnly every AUTH-prefixed line leads to the
Auth-Fail sub-sequence and outcome Quit; under AcceptAll every
AUTH-prefixed line is answered 235 regardless of content and the next line
is dispatched; and under either policy a non-AUTH line is dispatched as the
command line itself with no additional read. -/
theorem C5_auth_policies (c : List Nat) (cs : List (List Nat))
    (w : List String) (hc : c ≠ []) :
    (starts_with (fromUtf8Lossy c) "AUTH" = true →
      (∀ (q : List Nat) (qs : List (List Nat)), q ≠ [] →
        fromUtf8Lossy q = "QUIT\r\n" → cs = q :: qs →
        auth_step Auth.AcceptAnonOnly ⟨c :: cs, w⟩
          = some (Except.ok Response.Quit,
              ⟨qs, w ++ ["535 Authentication failed\r\n", "221 Ok\r\n"]⟩))
      ∧ auth_step Auth.AcceptAll ⟨c :: cs, w⟩
          = mbind read command_dispatch
              ⟨cs, w ++ ["235 Authentication successful\r\n"]⟩)
    ∧ (starts_with (fromUtf8Lossy c) "AUTH" = false →
      auth_step Auth.AcceptAnonOnly ⟨c :: cs, w⟩
          = command_dispatch (fromUtf8Lossy c) ⟨cs, w⟩
      ∧ auth_step Auth.AcceptAll ⟨c :: cs, w⟩
          = command_dispatch (fromUtf8Lossy c) ⟨cs, w⟩) := by
  constructor
  · intro hauth
    constructor
    · intro q qs hq hqd hcs
      subst hcs
      simp only [auth_step, respond_auth_fail, mbind_assoc,
        run_read _ _ _ _ hc, hauth, if_true, ite_true, run_write,
        run_read_expect_ok _ _ _ _ _ hq hqd, run_mpure, List.append_assoc,
        List.cons_append, List.nil_append]
    · simp only [auth_step, respond_auth_ok, mbind_assoc,
        run_read _ _ _ _ hc, hauth, if_true, ite_true, run_write,
        List.append_assoc, List.cons_append, List.nil_append]
  · intro hnauth
    constructor <;>
      simp only [auth_step, run_read _ _ _ _ hc, hnauth, if_false,
        ite_false, Bool.false_eq_true]

/-- Witness for C5 at concrete lines. -/
theorem C5_auth_policies_witness :
    (auth_step Auth.AcceptAnonOnly
        ⟨[strBytes "AUTH PLAIN eHh4\r\n", strBytes "QUIT\r\n"], []⟩
      = some (Except.ok Response.Quit,
          ⟨[], ["535 Authentication failed\r\n", "221 Ok\r\n"]⟩))
    ∧ (auth_step Auth.AcceptAll ⟨[strBytes "AUTH PLAIN eHh4\r\n"], []⟩
      = mbind read command_dispatch
          ⟨[], ["235 Authentication successful\r\n"]⟩)
    ∧ (auth_step Auth.AcceptAnonOnly ⟨[strBytes "NOOP\r\n"], []⟩
      = command_dispatch "NOOP\r\n" ⟨[], []⟩) := by
  refine ⟨?_, ?_, ?_⟩
  · exact ((C5_auth_policies (strBytes "AUTH PLAIN eHh4\r\n")
      [strBytes "QUIT\r\n"] [] (by decide)).1 (by decide)).1
      (strBytes "QUIT\r\n") [] (by decide) (by decide) rfl
  · exact ((C5_auth_policies (strBytes "AUTH PLAIN eHh4\r\n") [] []
      (by decide)).1 (by decide)).2
  · have h := ((C5_auth_policies (strBytes "NOOP\r\n") [] []
      (by decide)).2 (by decide)).1
    rw [h]
    rw [show fromUtf8Lossy (strBytes "NOOP\r\n") = "NOOP\r\n" by decide]

/-- C4: a session spawned by try_receive greets with 220 followed by the
server's own bound address, and requires the next line to equal exactly
EHLO [peer] CRLF where peer is the accepted connection's peer address (the
double parameter swap through task and run cancels out); a mismatch fails
with an unexpected-data error carrying the expected and actual strings. -/
theorem C4_greeting_addresses
    (parse_mail : List Nat → Except String ParsedMail)
    (sb peer : String) (auth : Auth) (c : List Nat)
    (rest : List (List Nat)) (hc : c ≠ []) :
    (fromUtf8Lossy c ≠ "EHLO [" ++ peer ++ "]\r\n" →
      try_receive_spawn parse_mail sb peer auth ⟨c :: rest, []⟩
        = some (Except.error (ServerError.Smtp (SmtpError.UnexpectedData
              ("EHLO [" ++ peer ++ "]\r\n") (fromUtf8Lossy c))),
            ⟨rest, ["220 " ++ sb ++ "\r\n"]⟩))
    ∧ (fromUtf8Lossy c = "EHLO [" ++ peer ++ "]\r\n" →
      try_receive_spawn parse_mail sb peer auth ⟨c :: rest, []⟩
        = mbind (liftSmtp (auth_step auth)) (run_convert parse_mail)
            ⟨rest, ["220 " ++ sb ++ "\r\n", "250-" ++ sb ++ "\r\n",
              "250 AUTH PLAIN\r\n"]⟩) := by
  constructor
  · intro hne
    have hrecv : receive sb peer auth ⟨c :: rest, []⟩
        = some (Except.error (SmtpError.UnexpectedData
            ("EHLO [" ++ peer ++ "]\r\n") (fromUtf8Lossy c)),
            ⟨rest, ["220 " ++ sb ++ "\r\n"]⟩) := by
      simp only [receive, mbind_assoc, run_write,
        run_read_expect_fail _ _ _ _ _ hc hne, List.nil_append]
    show mbind (liftSmtp (receive sb peer auth)) (run_convert parse_mail)
        ⟨c :: rest, []⟩ = _
    exact mbind_err _ _ _ _ _ (liftSmtp_step_err _ _ _ _ hrecv)
  · intro heq
    have hrecv : receive sb peer auth ⟨c :: rest, []⟩
        = auth_step auth
            ⟨rest, ["220 " ++ sb ++ "\r\n", "250-" ++ sb ++ "\r\n",
              "250 AUTH PLAIN\r\n"]⟩ := by
      simp only [receive, mbind_assoc, run_write,
        run_read_expect_ok _ _ _ _ _ hc heq, List.nil_append,
        List.cons_append, List.append_assoc]
    show mbind (liftSmtp (receive sb peer auth)) (run_convert parse_mail)
        ⟨c :: rest, []⟩ = _
    exact mbind_congr _ _ _ _ _ (liftSmtp_congr _ _ _ _ hrecv)

/-- Witness for C4 at a concrete server address, peer address and line. -/
theorem C4_greeting_addresses_witness :
    (try_receive_spawn (fun _ => Except.error "nope") "1.2.3.4" "5.6.7.8"
        Auth.AcceptAll ⟨[strBytes "EHLO [1.2.3.4]\r\n"], []⟩
      = some (Except.error (ServerError.Smtp (SmtpError.UnexpectedData
            "EHLO [5.6.7.8]\r\n" "EHLO [1.2.3.4]\r\n")),
          ⟨[], ["220 1.2.3.4\r\n"]⟩))
    ∧ (try_receive_spawn (fun _ => Except.error "nope") "1.2.3.4" "5.6.7.8"
        Auth.AcceptAll ⟨[strBytes "EHLO [5.6.7.8]\r\n"], []⟩
      = mbind (liftSmtp (auth_step Auth.AcceptAll))
          (run_convert (fun _ => Except.error "nope"))
          ⟨[], ["220 1.2.3.4\r\n", "250-1.2.3.4\r\n",
            "250 AUTH PLAIN\r\n"]⟩) := by
  constructor
  · have h := (C4_greeting_addresses (fun _ => Except.error "nope")
      "1.2.3.4" "5.6.7.8" Auth.AcceptAll (strBytes "EHLO [1.2.3.4]\r\n") []
      (by decide)).1 (by decide)
    rw [h]
    rw [show fromUtf8Lossy (strBytes "EHLO [1.2.3.4]\r\n")
      = "EHLO [1.2.3.4]\r\n" by decide]
    rfl
  · exact (C4_greeting_addresses (fun _ => Except.error "nope")
      "1.2.3.4" "5.6.7.8" Auth.AcceptAll (strBytes "EHLO [5.6.7.8]\r\n") []
      (by decide)).2 (by decide)

/-- C1 counterexample: a pass result that is a protocol-level error, sent
successfully on the channel (send_ok = true), does not stop the loop of
task: the iteration result is loopAgain, not stop, so the connection is
driven through the state machine again. -/
theorem C1_counterexample :
    ¬ task_iter (Except.error (ServerError.Smtp
        (SmtpError.UnexpectedContinuation "FOO\r\n"))) true
      = TaskNext.stop := by
  decide

/-- C1 amended: after a pass ending in an error whose channel send
succeeds, the task loops and drives the protocol again on the same
connection; it stops when the send fails, and on a Quit outcome. -/
theorem C1_task_loop_amended (e : ServerError) (send_ok : Bool) :
    task_iter (Except.error e) true = TaskNext.loopAgain
    ∧ task_iter (Except.error e) false = TaskNext.stop
    ∧ task_iter (Except.ok Response.Quit) send_ok = TaskNext.stop :=
  ⟨rfl, rfl, rfl⟩

/-- C9: in every channel state reachable from Server::start, the consumer
cannot observe the channel as closed, because the Server value itself
retains a sender; the expect("senders closed") branch of try_receive is
unreachable. -/
theorem C9_channel_never_closed {α : Type} (ch : ChannelModel α)
    (h : ChannelReachable α ch) : ¬ recv_observes_closed ch := by
  intro hc
  unfold recv_observes_closed total_senders at hc
  omega

/-- Witness for C9 at the initial channel state. -/
theorem C9_channel_never_closed_witness :
    ¬ recv_observes_closed (⟨[], 0⟩ : ChannelModel Nat) :=
  C9_channel_never_closed _ (ChannelReachable.init)

lemma fromUtf8Lossy_nil : fromUtf8Lossy [] = "" := rfl

lemma fromUtf8Lossy_ne_empty {c : List Nat} (hc : c ≠ []) :
    fromUtf8Lossy c ≠ "" := by
  cases c with
  | nil => exact absurd rfl hc
  | cons b rest =>
    intro h
    have h2 : utf8LossyAux (b :: rest).length (b :: rest)
        = ([] : List Char) := congrArg String.data h
    rw [List.length_cons] at h2
    simp [utf8LossyAux] at h2

lemma read_poll_all_empty (stream : Nat → List Nat)
    (h : ∀ i, stream i = []) :
    ∀ fuel i, read_poll stream fuel i = none := by
  intro fuel
  induction fuel with
  | zero => intro i; rfl
  | succ f ih =>
    intro i
    simp only [read_poll, h i, if_true, ite_true]
    exact ih (i + 1)

lemma read_poll_first (stream : Nat → List Nat) :
    ∀ (d fuel i : Nat), (∀ j, j < d → stream (i + j) = []) →
      stream (i + d) ≠ [] → d < fuel →
      read_poll stream fuel i = some (stream (i + d), i + d) := by
  intro d
  induction d with
  | zero =>
    intro fuel i _ hne hf
    cases fuel with
    | zero => omega
    | succ f =>
      simp only [read_poll]
      rw [if_neg (by simpa using hne)]
      simp
  | succ d ih =>
    intro fuel i hemp hne hf
    cases fuel with
    | zero => omega
    | succ f =>
      simp only [read_poll]
      rw [if_pos (by simpa using hemp 0 (by omega))]
      have h1 : ∀ j, j < d → stream (i + 1 + j) = [] := by
        intro j hj
        have := hemp (j + 1) (by omega)
        have harith : i + (j + 1) = i + 1 + j := by omega
        rwa [harith] at this
      have h2 : stream (i + 1 + d) ≠ [] := by
        have harith : i + (d + 1) = i + 1 + d := by omega
        rwa [harith] at hne
      have := ih f (i + 1) h1 h2 (by omega)
      rw [this]
      have harith : i + 1 + d = i + (d + 1) := by omega
      rw [harith]

lemma read_poll_nonempty (stream : Nat → List Nat) :
    ∀ (fuel i : Nat) (c : List Nat) (n : Nat),
      read_poll stream fuel i = some (c, n) → c ≠ [] := by
  intro fuel
  induction fuel with
  | zero => intro i c n h; exact absurd h (by simp [read_poll])
  | succ f ih =>
    intro i c n h
    by_cases he : stream i = []
    · rw [read_poll, if_pos he] at h
      exact ih (i + 1) c n h
    · rw [read_poll, if_neg he] at h
      simp only [Option.some.injEq, Prod.mk.injEq] at h
      exact h.1 ▸ he

/-- C8: the read primitive retries (one READ_WAIT sleep per zero-byte
read) while every underlying read yields zero bytes and never terminates
if they all do; it returns as soon as some read has yielded at least one
byte, decoding the accumulated buffer lossily (invalid bytes become the
replacement character rather than an error); and it never returns an
empty string. -/
theorem C8_read_retry_lossy (stream : Nat → List Nat) :
    ((∀ i, stream i = []) → ∀ fuel, read_result stream fuel = none)
    ∧ (∀ k fuel, (∀ j, j < k → stream j = []) → stream k ≠ [] → k < fuel →
        read_result stream fuel = some (fromUtf8Lossy (stream k), k))
    ∧ (∀ fuel r n, read_result stream fuel = some (r, n) → r ≠ "")
    ∧ fromUtf8Lossy [0xFF, 0x41] = "�A" := by
  refine ⟨?_, ?_, ?_, by decide⟩
  · intro h fuel
    unfold read_result
    rw [read_poll_all_empty stream h fuel 0]
    rfl
  · intro k fuel hemp hne hf
    unfold read_result
    have := read_poll_first stream k fuel 0 (by simpa using hemp)
      (by simpa using hne) hf
    rw [this]
    simp
  · intro fuel r n h
    unfold read_result at h
    cases hp : read_poll stream fuel 0 with
    | none => rw [hp] at h; exact absurd h (by simp)
    | some p =>
      rw [hp] at h
      simp only [Option.map, Option.some.injEq, Prod.mk.injEq] at h
      have hc := read_poll_nonempty stream fuel 0 p.1 p.2 hp
      exact h.1 ▸ fromUtf8Lossy_ne_empty hc

/-- Witness for C8: a concrete stream whose first read is empty and second
read carries bytes. -/
theorem C8_read_retry_lossy_witness :
    read_result (fun i => if i = 1 then [78, 255] else []) 5
      = some ("N�", 1)
    ∧ "N�" ≠ "" := by
  constructor
  · have h := (C8_read_retry_lossy
      (fun i => if i = 1 then [78, 255] else [])).2.1 1 5
      (by intro j hj; interval_cases j <;> decide) (by decide) (by decide)
    rw [h]
    decide
  · exact (C8_read_retry_lossy
      (fun i => if i = 1 then [78, 255] else [])).2.2.1 5 "N�" 1
      (by
        have h := (C8_read_retry_lossy
          (fun i => if i = 1 then [78, 255] else [])).2.1 1 5
          (by intro j hj; interval_cases j <;> decide) (by decide) (by decide)
        rw [h]
        decide)

/-- C6: the converter requires exactly one From header (zero is a
missing-From error, several a multiple-From error carrying all values) whose
value contains the literal <sender>; otherwise a mismatch error naming the
envelope value and the header value; and the identical rule for To against
the envelope recipient. -/
theorem C6_envelope_header_checks (af bt : String) (mail : ParsedMail) :
    (get_all_values mail.headers "From" = [] →
      convert_email af bt mail
        = some (Except.error ConversionError.MisingFromAddress))
    ∧ (∀ vs, get_all_values mail.headers "From" = vs → 1 < vs.length →
      convert_email af bt mail
        = some (Except.error (ConversionError.MultipleFromAddresses vs)))
    ∧ (∀ v, get_all_values mail.headers "From" = [v] →
      str_contains v ("<" ++ af ++ ">") = false →
      convert_email af bt mail
        = some (Except.error (ConversionError.FromAddressMismatch af v)))
    ∧ (∀ v, get_all_values mail.headers "From" = [v] →
      str_contains v ("<" ++ af ++ ">") = true →
      (get_all_values mail.headers "To" = [] →
        convert_email af bt mail
          = some (Except.error ConversionError.MisingToAddress))
      ∧ (∀ ws, get_all_values mail.headers "To" = ws → 1 < ws.length →
        convert_email af bt mail
          = some (Except.error (ConversionError.MultipleToAddresses ws)))
      ∧ (∀ u, get_all_values mail.headers "To" = [u] →
        str_contains u ("<" ++ bt ++ ">") = false →
        convert_email af bt mail
          = some (Except.error (ConversionError.ToAddressMismatch bt u)))) := by
  refine ⟨?_, ?_, ?_, ?_⟩
  · intro h
    simp [convert_email, h]
  · intro vs hvs hlen
    simp [convert_email, hvs, hlen]
  · intro v hv hcont
    simp [convert_email, hv, hcont]
  · intro v hv hcont
    refine ⟨?_, ?_, ?_⟩
    · intro h
      simp [convert_email, hv, hcont, h]
    · intro ws hws hlen
      simp [convert_email, hv, hcont, hws, hlen]
    · intro u hu hucont
      simp [convert_email, hv, hcont, hu, hucont]

/-- Witness for C6 at concrete messages. -/
theorem C6_envelope_header_checks_witness :
    (convert_email "a@x.com" "b@x.com"
        ⟨[⟨"To", "B <b@x.com>"⟩], []⟩
      = some (Except.error ConversionError.MisingFromAddress))
    ∧ (convert_email "a@x.com" "b@x.com"
        ⟨[⟨"From", "C <c@x.com>"⟩, ⟨"To", "B <b@x.com>"⟩], []⟩
      = some (Except.error
          (ConversionError.FromAddressMismatch "a@x.com" "C <c@x.com>")))
    ∧ (convert_email "a@x.com" "b@x.com"
        ⟨[⟨"From", "A <a@x.com>"⟩, ⟨"To", "D <d@x.com>"⟩], []⟩
      = some (Except.error
          (ConversionError.ToAddressMismatch "b@x.com" "D <d@x.com>"))) := by
  refine ⟨?_, ?_, ?_⟩
  · exact (C6_envelope_header_checks "a@x.com" "b@x.com"
      ⟨[⟨"To", "B <b@x.com>"⟩], []⟩).1 (by decide)
  · exact (C6_envelope_header_checks "a@x.com" "b@x.com"
      ⟨[⟨"From", "C <c@x.com>"⟩, ⟨"To", "B <b@x.com>"⟩], []⟩).2.2.1
      "C <c@x.com>" (by decide) (by decide)
  · exact ((C6_envelope_header_checks "a@x.com" "b@x.com"
      ⟨[⟨"From", "A <a@x.com>"⟩, ⟨"To", "D <d@x.com>"⟩], []⟩).2.2.2
      "A <a@x.com>" (by decide) (by decide)).2.2
      "D <d@x.com>" (by decide) (by decide)

/-- C7: with the header checks passing, a top-level part count other than
two fails with a part-count error naming the actual count; with exactly two
parts whose bodies decode, a first part not declared text/plain fails with
a MIME-mismatch error naming the actual type and text/plain, and a second
part not declared text/html fails naming the actual type and text/html. -/
theorem C7_part_count_and_mime (af bt : String) (mail : ParsedMail)
    (fv tv sv : String)
    (hf : get_all_values mail.headers "From" = [fv])
    (hfc : str_contains fv ("<" ++ af ++ ">") = true)
    (ht : get_all_values mail.headers "To" = [tv])
    (htc : str_contains tv ("<" ++ bt ++ ">") = true)
    (hs : get_all_values mail.headers "Subject" = [sv]) :
    (mail.subparts.length ≠ 2 →
      convert_email af bt mail
        = some (Except.error
            (ConversionError.UnexpectedPartCount mail.subparts.length)))
    ∧ (∀ p1 p2 b1 b2, mail.subparts = [p1, p2] → p1.body = some b1 →
        p2.body = some b2 → p1.mimetype ≠ "text/plain" →
        convert_email af bt mail
          = some (Except.error (ConversionError.UnexpectedPartMime
              p1.mimetype "text/plain")))
    ∧ (∀ p1 p2 b1 b2, mail.subparts = [p1, p2] → p1.body = some b1 →
        p2.body = some b2 → p1.mimetype = "text/plain" →
        p2.mimetype ≠ "text/html" →
        convert_email af bt mail
          = some (Except.error (ConversionError.UnexpectedPartMime
              p2.mimetype "text/html"))) := by
  refine ⟨?_, ?_, ?_⟩
  · intro h
    simp [convert_email, hf, hfc, ht, htc, hs, h]
  · intro p1 p2 b1 b2 hsub hb1 hb2 hm1
    simp [convert_email, hf, hfc, ht, htc, hs, hsub, hb1, hb2, hm1]
  · intro p1 p2 b1 b2 hsub hb1 hb2 hm1 hm2
    simp [convert_email, hf, hfc, ht, htc, hs, hsub, hb1, hb2, hm1, hm2]

/-- Witness for C7: a three-part payload is rejected naming 3, and a
swapped-order payload is rejected naming text/html actual versus
text/plain expected. -/
theorem C7_part_count_and_mime_witness :
    (convert_email "a@x.com" "b@x.com"
        ⟨[⟨"From", "A <a@x.com>"⟩, ⟨"To", "B <b@x.com>"⟩,
          ⟨"Subject", "Hi"⟩],
          [⟨"text/plain", some "x"⟩, ⟨"text/html", some "y"⟩,
            ⟨"text/plain", some "z"⟩]⟩
      = some (Except.error (ConversionError.UnexpectedPartCount 3)))
    ∧ (convert_email "a@x.com" "b@x.com"
        ⟨[⟨"From", "A <a@x.com>"⟩, ⟨"To", "B <b@x.com>"⟩,
          ⟨"Subject", "Hi"⟩],
          [⟨"text/html", some "y"⟩, ⟨"text/plain", some "x"⟩]⟩
      = some (Except.error (ConversionError.UnexpectedPartMime
          "text/html" "text/plain"))) := by
  constructor
  · exact (C7_part_count_and_mime "a@x.com" "b@x.com" _
      "A <a@x.com>" "B <b@x.com>" "Hi" (by decide) (by decide) (by decide)
      (by decide) (by decide)).1 (by decide)
  · exact (C7_part_count_and_mime "a@x.com" "b@x.com" _
      "A <a@x.com>" "B <b@x.com>" "Hi" (by decide) (by decide) (by decide)
      (by decide) (by decide)).2.1
      ⟨"text/html", some "y"⟩ ⟨"text/plain", some "x"⟩ "y" "x"
      rfl rfl rfl (by decide)

/-- C10: with the header checks passing and exactly two top-level parts,
the converter unwraps both get_body() results before checking the MIME
types, so a failing body decode on either part panics (result none)
instead of returning an error — even when a MIME type is wrong and a
MIME-mismatch error would otherwise be returned. -/
theorem C10_body_unwrap_before_mime (af bt : String) (mail : ParsedMail)
    (fv tv sv : String)
    (hf : get_all_values mail.headers "From" = [fv])
    (hfc : str_contains fv ("<" ++ af ++ ">") = true)
    (ht : get_all_values mail.headers "To" = [tv])
    (htc : str_contains tv ("<" ++ bt ++ ">") = true)
    (hs : get_all_values mail.headers "Subject" = [sv]) :
    ∀ p1 p2, mail.subparts = [p1, p2] →
      p1.body = none ∨ p2.body = none →
      convert_email af bt mail = none := by
  intro p1 p2 hsub hbody
  rcases hbody with hb | hb
  · simp [convert_email, hf, hfc, ht, htc, hs, hsub, hb]
  · cases hb1 : p1.body with
    | none => simp [convert_email, hf, hfc, ht, htc, hs, hsub, hb1]
    | some b1 => simp [convert_email, hf, hfc, ht, htc, hs, hsub, hb1, hb]

/-- Witness for C10: a two-part payload with a wrong first MIME type and a
failing body decode panics (none) rather than reporting the MIME
mismatch. -/
theorem C10_body_unwrap_before_mime_witness :
    convert_email "a@x.com" "b@x.com"
      ⟨[⟨"From", "A <a@x.com>"⟩, ⟨"To", "B <b@x.com>"⟩, ⟨"Subject", "Hi"⟩],
        [⟨"text/html", none⟩, ⟨"text/plain", some "x"⟩]⟩ = none :=
  C10_body_unwrap_before_mime "a@x.com" "b@x.com" _
    "A <a@x.com>" "B <b@x.com>" "Hi" (by decide) (by decide) (by decide)
    (by decide) (by decide) ⟨"text/html", none⟩ ⟨"text/plain", some "x"⟩
    rfl (Or.inl rfl)

end SmtpTestServer
